import Mathlib

/-!
Verification of the repo-analyzer selection-and-scoring pipeline.

This file gives a shallow embedding of the core components of the
repository analyzer (scorer.py, selector.py, fetcher.py, cache.py) and
proves properties of the embedded definitions.

Modelling conventions:
* Python floats are modelled as exact rationals (ℚ).
* Timestamps are epoch seconds (ℤ); ISO-8601 strings of the shape
  `YYYY-MM-DDThh:mm:ssZ` (or with a `+00:00` offset, which is what
  `s.replace("Z", "+00:00")` feeds to `datetime.fromisoformat`) are parsed
  by `parseDateZ`; any other string is treated as unparseable, modelling
  the `ValueError`/`TypeError` that `fromisoformat` / aware-naive
  subtraction raises.
* Python functions that can raise are modelled in `Except String`.
* A dict field that may be missing is an `Option` (or a defaulted field),
  matching `repo.get(key, default)`.
-/

/-! ### Timestamp parsing (models `datetime.fromisoformat` on GitHub-style dates) -/

/-- Numeric value of a digit character. -/
def digitVal (c : Char) : Nat := c.toNat - 48

/-- Two-digit decimal number. -/
def twoDigits (a b : Char) : Nat := 10 * digitVal a + digitVal b

/-- Gregorian leap-year test. -/
def isLeapYear (y : Nat) : Bool :=
  y % 4 == 0 && (!(y % 100 == 0) || y % 400 == 0)

/-- Length of month `m` (1–12) in a year with leap-flag `leap`. -/
def monthLength (leap : Bool) (m : Nat) : Nat :=
  if m = 1 then 31
  else if m = 2 then (if leap then 29 else 28)
  else if m = 3 then 31
  else if m = 4 then 30
  else if m = 5 then 31
  else if m = 6 then 30
  else if m = 7 then 31
  else if m = 8 then 31
  else if m = 9 then 30
  else if m = 10 then 31
  else if m = 11 then 30
  else if m = 12 then 31
  else 0

/-- Days in all years before year `y` (proleptic Gregorian). -/
def daysBeforeYear (y : Nat) : Nat :=
  365 * (y - 1) + (y - 1) / 4 + (y - 1) / 400 - (y - 1) / 100

/-- Days in the months of the current year strictly before month `m`. -/
def daysBeforeMonth (leap : Bool) (m : Nat) : Nat :=
  ((List.range (m - 1)).map (fun i => monthLength leap (i + 1))).sum

/-- Zero-based ordinal day of a calendar date. -/
def toOrdinalDay (y m d : Nat) : Nat :=
  daysBeforeYear y + daysBeforeMonth (isLeapYear y) m + (d - 1)

/-- Ordinal day of the Unix epoch 1970-01-01. -/
def epochOrdinal : Nat := toOrdinalDay 1970 1 1

/-- Epoch seconds of a UTC date-time. -/
def epochSecondsOf (y mo d h mi s : Nat) : Int :=
  86400 * ((toOrdinalDay y mo d : Int) - (epochOrdinal : Int))
    + 3600 * h + 60 * mi + s

/-- Parse a UTC ISO-8601 timestamp of the form `YYYY-MM-DDThh:mm:ssZ` or
`YYYY-MM-DDThh:mm:ss+00:00` into epoch seconds.  Returns `none` for any
other string, modelling the exception the Python code raises on data it
cannot use (`fromisoformat` raising `ValueError`, or the naive/aware
subtraction raising `TypeError`). -/
def parseDateZ (s : String) : Option Int :=
  let cs := s.toList
  let core? : Option (List Char) :=
    if cs.length == 20 && cs.drop 19 == ['Z'] then some (cs.take 19)
    else if cs.length == 25 && cs.drop 19 == ['+', '0', '0', ':', '0', '0'] then
      some (cs.take 19)
    else none
  match core? with
  | none => none
  | some core =>
    match core with
    | [y1, y2, y3, y4, a1, m1, m2, a2, d1, d2, a3, h1, h2, a4, n1, n2, a5, e1, e2] =>
      if y1.isDigit && y2.isDigit && y3.isDigit && y4.isDigit &&
         m1.isDigit && m2.isDigit && d1.isDigit && d2.isDigit &&
         h1.isDigit && h2.isDigit && n1.isDigit && n2.isDigit &&
         e1.isDigit && e2.isDigit &&
         a1 == '-' && a2 == '-' && a3 == 'T' && a4 == ':' && a5 == ':' then
        let y := 1000 * digitVal y1 + 100 * digitVal y2 + 10 * digitVal y3 + digitVal y4
        let mo := twoDigits m1 m2
        let d := twoDigits d1 d2
        let h := twoDigits h1 h2
        let mi := twoDigits n1 n2
        let sec := twoDigits e1 e2
        if 1 ≤ y && 1 ≤ mo && mo ≤ 12 && 1 ≤ d && d ≤ monthLength (isLeapYear y) mo &&
           h ≤ 23 && mi ≤ 59 && sec ≤ 59 then
          some (epochSecondsOf y mo d h mi sec)
        else none
      else none
    | _ => none

/-- Whole days between two epoch-second instants, flooring like
`timedelta.days` (`(now - then).days`). -/
def daysSince (now t : Int) : Int := (now - t).fdiv 86400

/-- Python truthiness of an optional string field: `None` and `""` are
falsy (`if not pushed_at: ...`). -/
def strFalsy : Option String → Bool
  | none => true
  | some s => s.isEmpty

/-! ### Data model

One record for the repository dict fetched from the GraphQL API.  Missing
dict keys are modelled by the stated defaults, matching every
`repo.get(key, default)` access in `scorer.py` / `selector.py`. -/

/-- A repository record as consumed by the scorer and the selector. -/
structure RepoData where
  name : String := ""
  isArchived : Bool := false
  isFork : Bool := false
  isEmpty : Bool := false
  isPrivate : Bool := false
  stargazerCount : Nat := 0
  forkCount : Nat := 0
  issuesTotalCount : Nat := 0
  pullRequestsTotalCount : Nat := 0
  pushedAt : Option String := none
  createdAt : Option String := none
  releaseNodes : List String := []
  deriving DecidableEq, Repr

/-! ### Kernel-computable rational arithmetic

The standard `ℚ` field operations are `@[irreducible]`, so concrete
values built with them cannot be evaluated by `decide`/`rfl`.  The
following operations compute the same functions through `mkRat` (which
does reduce); the `_eq` lemmas identify them with the field operations,
so theorems can still be stated with ordinary `ℚ` arithmetic. -/

/-- Rational multiplication, computable by the kernel. -/
def qmul (a b : ℚ) : ℚ := mkRat (a.num * b.num) (a.den * b.den)

/-- Rational addition, computable by the kernel. -/
def qadd (a b : ℚ) : ℚ := mkRat (a.num * b.den + b.num * a.den) (a.den * b.den)

/-- Rational subtraction, computable by the kernel. -/
def qsub (a b : ℚ) : ℚ := mkRat (a.num * b.den - b.num * a.den) (a.den * b.den)

/-- Rational division, computable by the kernel (division by zero gives
zero, as with `ℚ`'s `/`; the embedded code never divides by zero). -/
def qdiv (a b : ℚ) : ℚ :=
  if 0 ≤ b.num then mkRat (a.num * (b.den : Int)) (a.den * b.num.toNat)
  else mkRat (-(a.num * (b.den : Int))) (a.den * (-b.num).toNat)

/-! ### Scorer (scorer.py `HealthScorer`) -/

/-- Banker's rounding of a rational to an integer, the semantics of
Python's built-in `round`. -/
def roundHalfEven (q : ℚ) : ℤ :=
  let f := Rat.floor q
  let frac := qsub q (f : ℚ)
  if frac < mkRat 1 2 then f
  else if mkRat 1 2 < frac then f + 1
  else if f % 2 = 0 then f else f + 1

/-- Embeds `HealthScorer._score_commit_frequency`. -/
def score_commit_frequency (now : Int) (repo : RepoData) : Except String ℚ :=
  if strFalsy repo.pushedAt then .ok 0
  else
    match parseDateZ (repo.pushedAt.getD "") with
    | none => .error "ValueError: invalid isoformat string"
    | some t =>
      let d := daysSince now t
      .ok (if d ≤ 7 then 100
           else if d ≤ 30 then 80
           else if d ≤ 90 then 60
           else if d ≤ 180 then 40
           else if d ≤ 365 then 20
           else 0)

/-- Embeds `HealthScorer._score_responsiveness`. -/
def score_responsiveness (repo : RepoData) : ℚ :=
  let t := repo.issuesTotalCount + repo.pullRequestsTotalCount
  if t ≥ 100 then 100
  else if t ≥ 50 then 80
  else if t ≥ 20 then 60
  else if t ≥ 10 then 40
  else if t ≥ 5 then 20
  else 10

/-- Embeds `HealthScorer._score_release_cadence`. -/
def score_release_cadence (now : Int) (repo : RepoData) : Except String ℚ :=
  match repo.releaseNodes with
  | [] =>
    if strFalsy repo.createdAt then .ok 0
    else
      match parseDateZ (repo.createdAt.getD "") with
      | none => .error "ValueError: invalid isoformat string"
      | some t => .ok (if daysSince now t < 30 then 50 else 0)
  | rel :: _ =>
    match parseDateZ rel with
    | none => .error "ValueError: invalid isoformat string"
    | some t =>
      let d := daysSince now t
      .ok (if d ≤ 30 then 100
           else if d ≤ 90 then 80
           else if d ≤ 180 then 60
           else if d ≤ 365 then 40
           else 20)

/-- Embeds `HealthScorer._score_contributors`. -/
def score_contributors (repo : RepoData) : ℚ :=
  let f := repo.forkCount
  if f ≥ 50 then 100
  else if f ≥ 20 then 80
  else if f ≥ 10 then 60
  else if f ≥ 5 then 40
  else if f ≥ 2 then 20
  else 10

/-- Embeds `HealthScorer._score_star_growth`. -/
def score_star_growth (now : Int) (repo : RepoData) : Except String ℚ :=
  if strFalsy repo.createdAt || repo.stargazerCount == 0 then .ok 0
  else
    match parseDateZ (repo.createdAt.getD "") with
    | none => .error "ValueError: invalid isoformat string"
    | some t =>
      let ageDays : Int := max 1 (daysSince now t)
      let months : ℚ := max 1 (qdiv (ageDays : ℚ) 30)
      let spm : ℚ := qdiv (repo.stargazerCount : ℚ) months
      .ok (if spm ≥ 100 then 100
           else if spm ≥ 50 then 90
           else if spm ≥ 20 then 80
           else if spm ≥ 10 then 70
           else if spm ≥ 5 then 60
           else if spm ≥ 2 then 50
           else if spm ≥ 1 then 40
           else if spm ≥ mkRat 1 2 then 30
           else 20)

/-- Embeds `HealthScorer._score_ci_health`. -/
def score_ci_health (now : Int) (repo : RepoData) : Except String ℚ :=
  if strFalsy repo.pushedAt then .ok 50
  else
    match parseDateZ (repo.pushedAt.getD "") with
    | none => .error "ValueError: invalid isoformat string"
    | some t =>
      let d := daysSince now t
      .ok (if d ≤ 1 then 100
           else if d ≤ 7 then 90
           else if d ≤ 14 then 80
           else if d ≤ 30 then 70
           else 50)

/-- Embeds `HealthScorer.calculate_score`: the six sub-scores are computed
in source order (the first exception propagates), combined with the fixed
weights 0.30 / 0.25 / 0.15 / 0.10 / 0.10 / 0.10, rounded with Python
`round`, and clamped to `[0, 100]`. -/
def calculate_score (now : Int) (repo : RepoData) : Except String ℤ :=
  match score_commit_frequency now repo with
  | .error e => .error e
  | .ok s1 =>
    match score_release_cadence now repo with
    | .error e => .error e
    | .ok s3 =>
      match score_star_growth now repo with
      | .error e => .error e
      | .ok s5 =>
        match score_ci_health now repo with
        | .error e => .error e
        | .ok s6 =>
          .ok (max 0 (min 100 (roundHalfEven
            (qadd (qadd (qadd (qadd (qadd
              (qmul s1 (mkRat 3 10))
              (qmul (score_responsiveness repo) (mkRat 1 4)))
              (qmul s3 (mkRat 3 20)))
              (qmul (score_contributors repo) (mkRat 1 10)))
              (qmul s5 (mkRat 1 10)))
              (qmul s6 (mkRat 1 10))))))

/-! ### Selector (selector.py `RepoSelector.select_important_repos`) -/

/-- The filter predicate of Step 1: a repository is kept when none of
`isArchived`, `isFork`, `isEmpty`, `isPrivate` is true (a missing key
reads as `False` via `repo.get(flag, False)`). -/
def keepRepo (r : RepoData) : Bool :=
  !(r.isArchived || r.isFork || r.isEmpty || r.isPrivate)

/-- The `filtered_repos` list built by the filtering loop. -/
def filteredRepos (repos : List RepoData) : List RepoData :=
  repos.filter keepRepo

/-- Base importance before the recency multiplier:
`stars * 1.0 + forks * 0.5`. -/
def baseScore (r : RepoData) : ℚ :=
  qadd (qmul (r.stargazerCount : ℚ) 1) (qmul (r.forkCount : ℚ) (mkRat 1 2))

/-- Days since the last push, if a parseable push timestamp is present
(`none` models the falsy branch; a present but unparseable timestamp is
the raising branch). -/
def daysSincePush (now : Int) (r : RepoData) : Except String (Option Int) :=
  if strFalsy r.pushedAt then .ok none
  else
    match parseDateZ (r.pushedAt.getD "") with
    | none => .error "ValueError: invalid isoformat string"
    | some t => .ok (some (daysSince now t))

/-- The recency multiplier applied to the base score: 1.2 when pushed
within the last 30 days, 0.8 when not pushed in over 365 days. -/
def importanceOf (r : RepoData) : Option Int → ℚ
  | none => baseScore r
  | some d =>
    if d < 30 then qmul (baseScore r) (mkRat 12 10)
    else if 365 < d then qmul (baseScore r) (mkRat 8 10)
    else baseScore r

/-- Embeds the inner `importance_score` function of
`RepoSelector.select_important_repos`. -/
def importance_score (now : Int) (r : RepoData) : Except String ℚ :=
  (daysSincePush now r).map (importanceOf r)

/-- The sort keys computed for a list of repositories, left to right, the
first exception propagating (Python's `list.sort(key=...)` materialises
the keys in order before sorting). -/
def computeKeys (now : Int) : List RepoData → Except String (List (RepoData × ℚ))
  | [] => .ok []
  | r :: rs =>
    match importance_score now r with
    | .error e => .error e
    | .ok q =>
      match computeKeys now rs with
      | .error e => .error e
      | .ok ps => .ok ((r, q) :: ps)

/-- Descending order on the precomputed keys.  A stable sort with this
relation is exactly Python's `sort(key=..., reverse=True)` (stable,
descending by key); the embedding uses the stable `insertionSort`, which
computes the same list as Python's stable sort for this total transitive
relation. -/
def descRel (a b : RepoData × ℚ) : Prop := b.2 ≤ a.2

instance : DecidableRel descRel := fun a b => inferInstanceAs (Decidable (b.2 ≤ a.2))

instance : IsTotal (RepoData × ℚ) descRel := ⟨fun a b => le_total b.2 a.2⟩

instance : IsTrans (RepoData × ℚ) descRel := ⟨fun _ _ _ hab hbc => le_trans hbc hab⟩

/-- The truncation loop of Step 4: walk the sorted list accumulating
stars, stopping when the prefix reaches `maxRepos` elements, or when it
has at least 5 elements covering at least 80 % of `total` stars. -/
def selectLoop (maxRepos total : Nat) :
    List RepoData → Nat → List RepoData → List RepoData
  | [], _, selected => selected.reverse
  | r :: rest, acc, selected =>
    if maxRepos ≤ (r :: selected).length then (r :: selected).reverse
    else if 5 ≤ (r :: selected).length ∧
        qmul (total : ℚ) (mkRat 8 10) ≤ ((acc + r.stargazerCount : Nat) : ℚ) then
      (r :: selected).reverse
    else selectLoop maxRepos total rest (acc + r.stargazerCount) (r :: selected)

/-- Embeds `RepoSelector.select_important_repos`: filter, rank by
importance (descending, stable), and truncate. -/
def select_important_repos (now : Int) (repos : List RepoData)
    (maxRepos : Nat := 30) : Except String (List RepoData) :=
  match computeKeys now (filteredRepos repos) with
  | .error e => .error e
  | .ok keyed =>
    if ((keyed.insertionSort descRel).map Prod.fst).length ≤ maxRepos then
      .ok ((keyed.insertionSort descRel).map Prod.fst)
    else
      .ok (selectLoop maxRepos
        ((((keyed.insertionSort descRel).map Prod.fst).map (·.stargazerCount)).sum)
        ((keyed.insertionSort descRel).map Prod.fst) 0 [])

/-- Decidable equality for `Except`, so concrete runs of the embedded
fallible functions can be checked by `decide`. -/
instance {ε α : Type} [DecidableEq ε] [DecidableEq α] : DecidableEq (Except ε α)
  | .ok a, .ok b => if h : a = b then .isTrue (by rw [h]) else .isFalse (by simp [h])
  | .ok _, .error _ => .isFalse (by simp)
  | .error _, .ok _ => .isFalse (by simp)
  | .error e, .error f => if h : e = f then .isTrue (by rw [h]) else .isFalse (by simp [h])

/-! ### Fetcher error translation and rate-limit backoff (fetcher.py) -/

/-- The distinct failure branches of `GitHubFetcher.fetch_org_repos`,
labelled with the spec's error taxonomy: each constructor corresponds to
one `raise` site in the source. -/
inductive FetchError where
  | authError (msg : String)
  | notFoundError (msg : String)
  | protocolError (msg : String)
  | upstreamUnavailable (msg : String)
  | genericUpstream (status : Nat) (body : String)
  deriving DecidableEq, Repr

/-- Discriminator for the retry-friendly 5xx branch. -/
def FetchError.isUpstreamUnavailable : FetchError → Bool
  | .upstreamUnavailable _ => true
  | _ => false

/-- Embeds the `except httpx.HTTPStatusError` handler of
`fetch_org_repos`: 401, 404 and 502 get dedicated messages, every other
error status falls through to the generic branch carrying status and
body. -/
def handleHTTPError (org : String) (status : Nat) (body : String) : FetchError :=
  if status = 401 then
    .authError "Invalid GitHub token. Please check your GITHUB_TOKEN."
  else if status = 404 then
    .notFoundError ("Organization " ++ org ++ " not found")
  else if status = 502 then
    .upstreamUnavailable "GitHub servers are temporarily unavailable (502). Try again in a few moments or try a smaller organization."
  else
    .genericUpstream status body

/-- Outcome of one page response: `raise_for_status` raises for every
non-2xx status (handled by `handleHTTPError`); a 2xx body with a GraphQL
`errors` array raises the protocol error; a 2xx body without
`data.organization` raises the not-found error; otherwise the page is
accepted. -/
def pageOutcome (org : String) (status : Nat) (body : String)
    (hasErrorsArray : Bool) (orgPresent : Bool) : Option FetchError :=
  if ¬(200 ≤ status ∧ status ≤ 299) then some (handleHTTPError org status body)
  else if hasErrorsArray then some (.protocolError "GraphQL query failed")
  else if ¬orgPresent then some (.notFoundError ("Organization " ++ org ++ " not found"))
  else none

/-- Embeds the rate-limit backoff decision taken after each page: when
the reported `remaining` is below 10, `sleep_time = reset - now + 1` is
computed and the task suspends for that long only when it is positive.
Returns the number of seconds slept, if any. -/
def rateLimitSleep (remaining reset now : Int) : Option Int :=
  if remaining < 10 then
    if 0 < reset - now + 1 then some (reset - now + 1) else none
  else none

/-! ### Cache (cache.py `Cache`) -/

/-- The cache state: the TTL configured at construction
(`ttl = timedelta(hours=ttl_hours)`) and the rows of the `cache` table,
`(key, value, expires_at)`, keyed uniquely.  JSON round-tripping
(`json.dumps`/`json.loads`) is the identity on the stored value. -/
structure CacheState where
  ttlHours : Int
  entries : List (String × String × Int)

/-- Embeds `Cache._make_key`. -/
def make_key (pre identifier : String) : String :=
  pre ++ ":" ++ identifier

/-- Embeds `Cache.set`: insert-or-replace the row for the key with
`expires_at = now + ttl`. -/
def cacheSet (c : CacheState) (p i v : String) (now : Int) : CacheState :=
  let key := make_key p i
  { c with entries :=
      (key, v, now + 3600 * c.ttlHours) :: c.entries.filter (fun e => ¬(e.1 = key)) }

/-- Embeds `Cache.get`: look the key up; a row whose `expires_at` is in
the strict past reads as absent and is purged.  Returns the read value
and the possibly-purged state. -/
def cacheGet (c : CacheState) (p i : String) (now : Int) :
    Option String × CacheState :=
  let key := make_key p i
  match c.entries.find? (fun e => e.1 = key) with
  | none => (none, c)
  | some (_, v, exp) =>
    if exp < now then
      (none, { c with entries := c.entries.filter (fun e => ¬(e.1 = key)) })
    else (some v, c)

/-- Embeds `Cache.clear_all`: `DELETE FROM cache`. -/
def clear_all (c : CacheState) : CacheState :=
  { c with entries := [] }

/-! ### Well-formedness of date fields, and concrete inputs -/

/-- A date field is usable when it is falsy (missing/empty) or parses. -/
def dateFieldOk (s? : Option String) : Bool :=
  strFalsy s? || (parseDateZ (s?.getD "")).isSome

/-- A repository record on which the scorer completes without raising:
each optional timestamp is absent or well-formed. -/
def repoWellFormed (r : RepoData) : Bool :=
  dateFieldOk r.pushedAt && dateFieldOk r.createdAt &&
    (r.releaseNodes.isEmpty || (parseDateZ (r.releaseNodes.headD "")).isSome)

/-- Fifty repositories, all surviving the filter, with every star on the
first one: the 80 %-coverage rule stops the selection after 5. -/
def repos50cex : List RepoData :=
  { name := "big", stargazerCount := 1000 } ::
    (List.range 49).map (fun i => { name := toString i })

/-- Seven repositories with zero stars each, all surviving the filter. -/
def repos7zero : List RepoData :=
  (List.range 7).map (fun i => { name := toString i })

/-- A repository whose optional fields are all present and well-formed. -/
def wellFormedRepo : RepoData :=
  { name := "ok-repo"
    stargazerCount := 10000
    forkCount := 500
    issuesTotalCount := 1000
    pushedAt := some "2024-01-15T10:30:00Z"
    createdAt := some "2020-01-01T00:00:00Z"
    releaseNodes := ["2024-01-01T00:00:00Z"] }

/-- A repository with a present but malformed push timestamp. -/
def malformedRepo : RepoData :=
  { name := "bad-repo", pushedAt := some "not-a-timestamp" }

/-- The importance formula as worded by the spec (Step 2): base
`stars * 1.0 + forks * 0.5`, multiplied by 1.2 when pushed within the
last 30 days, by 0.8 when not pushed in over 365 days, otherwise (and
with no push timestamp) unmodified.  Stated with ordinary `ℚ`
arithmetic, to be compared with the embedded `importance_score`. -/
def specImportanceScore (stars forks : Nat) : Option Int → ℚ
  | none => (stars : ℚ) * 1 + (forks : ℚ) * (1 / 2)
  | some d =>
    if d < 30 then ((stars : ℚ) * 1 + (forks : ℚ) * (1 / 2)) * (12 / 10)
    else if 365 < d then ((stars : ℚ) * 1 + (forks : ℚ) * (1 / 2)) * (8 / 10)
    else (stars : ℚ) * 1 + (forks : ℚ) * (1 / 2)

/-! ### Helper lemmas -/

theorem qmul_eq (a b : ℚ) : qmul a b = a * b := by
  rw [qmul, ← Rat.mkRat_self a, ← Rat.mkRat_self b, Rat.mkRat_mul_mkRat,
    Rat.mkRat_self a, Rat.mkRat_self b]

theorem qadd_eq (a b : ℚ) : qadd a b = a + b := by
  rw [qadd, Rat.mkRat_eq_div]
  have ha : ((a.den : ℚ)) ≠ 0 := by
    exact_mod_cast a.den_nz
  have hb : ((b.den : ℚ)) ≠ 0 := by
    exact_mod_cast b.den_nz
  rw [show a + b = (a.num : ℚ) / (a.den : ℚ) + (b.num : ℚ) / (b.den : ℚ) by
    rw [Rat.num_div_den, Rat.num_div_den]]
  push_cast
  field_simp

theorem qsub_eq (a b : ℚ) : qsub a b = a - b := by
  rw [qsub, Rat.mkRat_eq_div]
  have ha : ((a.den : ℚ)) ≠ 0 := by
    exact_mod_cast a.den_nz
  have hb : ((b.den : ℚ)) ≠ 0 := by
    exact_mod_cast b.den_nz
  rw [show a - b = (a.num : ℚ) / (a.den : ℚ) - (b.num : ℚ) / (b.den : ℚ) by
    rw [Rat.num_div_den, Rat.num_div_den]]
  push_cast
  field_simp
  ring

theorem qdiv_eq (a b : ℚ) : qdiv a b = a / b := by
  rcases lt_trichotomy b.num 0 with hneg | hzero | hpos
  · have hb0 : b ≠ 0 := by
      intro h
      rw [h] at hneg
      simp at hneg
    rw [qdiv, if_neg (by omega), Rat.mkRat_eq_div]
    have ha : ((a.den : ℚ)) ≠ 0 := by
      exact_mod_cast a.den_nz
    have hbd : ((b.den : ℚ)) ≠ 0 := by
      exact_mod_cast b.den_nz
    have hbn : ((b.num : ℚ)) ≠ 0 := by
      exact_mod_cast hneg.ne
    have h1 : (((-b.num).toNat : ℤ)) = -b.num := Int.toNat_of_nonneg (by omega)
    have h2 : (((-b.num).toNat : ℕ) : ℚ) = -(b.num : ℚ) := by
      have := congrArg (fun z : ℤ => (z : ℚ)) h1
      push_cast at this
      exact this
    have hcast : (((a.den * (-b.num).toNat : Nat) : ℚ)) = (a.den : ℚ) * (-(b.num : ℚ)) := by
      push_cast [h2]
      ring
    rw [hcast]
    rw [show a / b = ((a.num : ℚ) / (a.den : ℚ)) / ((b.num : ℚ) / (b.den : ℚ)) by
      rw [Rat.num_div_den, Rat.num_div_den]]
    push_cast
    field_simp
  · have hb0 : b = 0 := by
      rwa [Rat.num_eq_zero] at hzero
    subst hb0
    rw [qdiv]
    simp
  · have hb0 : b ≠ 0 := by
      intro h
      rw [h] at hpos
      simp at hpos
    rw [qdiv, if_pos hpos.le, Rat.mkRat_eq_div]
    have ha : ((a.den : ℚ)) ≠ 0 := by
      exact_mod_cast a.den_nz
    have hbd : ((b.den : ℚ)) ≠ 0 := by
      exact_mod_cast b.den_nz
    have hbn : ((b.num : ℚ)) ≠ 0 := by
      exact_mod_cast hpos.ne'
    have h1 : ((b.num.toNat : ℤ)) = b.num := Int.toNat_of_nonneg hpos.le
    have h2 : ((b.num.toNat : ℕ) : ℚ) = (b.num : ℚ) := by
      have := congrArg (fun z : ℤ => (z : ℚ)) h1
      push_cast at this
      exact this
    have hcast : (((a.den * b.num.toNat : Nat) : ℚ)) = (a.den : ℚ) * (b.num : ℚ) := by
      push_cast [h2]
      rfl
    rw [hcast]
    rw [show a / b = ((a.num : ℚ) / (a.den : ℚ)) / ((b.num : ℚ) / (b.den : ℚ)) by
      rw [Rat.num_div_den, Rat.num_div_den]]
    push_cast
    field_simp


theorem except_isOk_iff {ε α : Type} (e : Except ε α) :
    e.isOk = true ↔ ∃ a, e = .ok a := by
  cases e <;> simp [Except.isOk, Except.toBool]

theorem computeKeys_fst {now : Int} :
    ∀ {l : List RepoData} {ps : List (RepoData × ℚ)},
      computeKeys now l = .ok ps → ps.map Prod.fst = l := by
  intro l
  induction l with
  | nil =>
    intro ps h
    rw [computeKeys] at h
    cases h
    rfl
  | cons r rs ih =>
    intro ps h
    rw [computeKeys] at h
    cases hq : importance_score now r with
    | error e => rw [hq] at h; cases h
    | ok q =>
      rw [hq] at h
      cases hk : computeKeys now rs with
      | error e => rw [hk] at h; cases h
      | ok tail =>
        rw [hk] at h
        cases h
        simpa using ih hk

theorem computeKeys_mem {now : Int} :
    ∀ {l : List RepoData} {ps : List (RepoData × ℚ)},
      computeKeys now l = .ok ps →
      ∀ p ∈ ps, importance_score now p.1 = .ok p.2 := by
  intro l
  induction l with
  | nil =>
    intro ps h
    rw [computeKeys] at h
    cases h
    intro p hp
    cases hp
  | cons r rs ih =>
    intro ps h
    rw [computeKeys] at h
    cases hq : importance_score now r with
    | error e => rw [hq] at h; cases h
    | ok q =>
      rw [hq] at h
      cases hk : computeKeys now rs with
      | error e => rw [hk] at h; cases h
      | ok tail =>
        rw [hk] at h
        cases h
        intro p hp
        rcases List.mem_cons.mp hp with hp | hp
        · subst hp; exact hq
        · exact ih hk p hp

theorem computeKeys_ok {now : Int} :
    ∀ {l : List RepoData},
      (∀ r ∈ l, (importance_score now r).isOk = true) →
      ∃ ps, computeKeys now l = .ok ps := by
  intro l
  induction l with
  | nil => exact fun _ => ⟨[], rfl⟩
  | cons r rs ih =>
    intro h
    obtain ⟨q, hq⟩ := (except_isOk_iff _).mp (h r (List.mem_cons_self r rs))
    obtain ⟨tail, htail⟩ := ih (fun x hx => h x (List.mem_cons_of_mem r hx))
    refine ⟨(r, q) :: tail, ?_⟩
    rw [computeKeys, hq, htail]

theorem selectLoop_eq_take (m total : Nat) :
    ∀ (rest : List RepoData) (acc : Nat) (sel : List RepoData),
      ∃ k, selectLoop m total rest acc sel = sel.reverse ++ rest.take k := by
  intro rest
  induction rest with
  | nil => exact fun acc sel => ⟨0, by simp [selectLoop]⟩
  | cons r rs ih =>
    intro acc sel
    rw [selectLoop]
    split_ifs with h1 h2
    · exact ⟨1, by simp⟩
    · exact ⟨1, by simp⟩
    · obtain ⟨k, hk⟩ := ih (acc + r.stargazerCount) (r :: sel)
      refine ⟨k + 1, ?_⟩
      rw [hk]
      simp [List.take_succ_cons]

theorem selectLoop_length_le (m total : Nat) :
    ∀ (rest : List RepoData) (acc : Nat) (sel : List RepoData),
      sel.length < m → (selectLoop m total rest acc sel).length ≤ m := by
  intro rest
  induction rest with
  | nil =>
    intro acc sel h
    simp [selectLoop]
    omega
  | cons r rs ih =>
    intro acc sel h
    rw [selectLoop]
    split_ifs with h1 h2
    · simp
      omega
    · simp at h1 ⊢
      omega
    · simp at h1
      exact ih (acc + r.stargazerCount) (r :: sel) (by simp; omega)

theorem selectLoop_length_ge (m total : Nat) :
    ∀ (rest : List RepoData) (acc : Nat) (sel : List RepoData),
      min (sel.length + rest.length) (min m 5) ≤
        (selectLoop m total rest acc sel).length := by
  intro rest
  induction rest with
  | nil =>
    intro acc sel
    rw [selectLoop]
    simp only [List.length_reverse, List.length_nil]
    omega
  | cons r rs ih =>
    intro acc sel
    rw [selectLoop]
    split_ifs with h1 h2
    · simp at h1 ⊢
      omega
    · obtain ⟨h2a, _⟩ := h2
      simp at h2a ⊢
      omega
    · have := ih (acc + r.stargazerCount) (r :: sel)
      simp at this ⊢
      omega

theorem selectLoop_total_zero (m : Nat) :
    ∀ (rest : List RepoData) (acc : Nat) (sel : List RepoData),
      sel.length < m → sel.length < 5 →
      min m 5 ≤ sel.length + rest.length →
      (selectLoop m 0 rest acc sel).length = min m 5 := by
  intro rest
  induction rest with
  | nil =>
    intro acc sel h1 h2 h3
    simp at h3
    exact absurd h3 (by omega)
  | cons r rs ih =>
    intro acc sel h1 h2 h3
    have hcov : qmul ((0 : Nat) : ℚ) (mkRat 8 10) ≤ ((acc + r.stargazerCount : Nat) : ℚ) := by
      rw [qmul_eq]
      simp
      positivity
    rw [selectLoop]
    split_ifs with hif1 hif2
    · simp at hif1 ⊢
      omega
    · obtain ⟨ha, _⟩ := hif2
      simp at ha hif1 ⊢
      omega
    · have h5 : ¬ (5 ≤ (r :: sel).length) := fun hh => hif2 ⟨hh, hcov⟩
      simp at hif1 h5 h3
      rw [ih (acc + r.stargazerCount) (r :: sel) (by simp; omega) (by simp; omega)
        (by simp; omega)]

theorem sortedOf_length {now : Int} {repos : List RepoData} {ps : List (RepoData × ℚ)}
    (h : computeKeys now (filteredRepos repos) = .ok ps) :
    ((ps.insertionSort descRel).map Prod.fst).length = (filteredRepos repos).length := by
  rw [List.length_map, List.length_insertionSort, ← computeKeys_fst h, List.length_map]

theorem sortedOf_sum {now : Int} {repos : List RepoData} {ps : List (RepoData × ℚ)}
    (h : computeKeys now (filteredRepos repos) = .ok ps) :
    (((ps.insertionSort descRel).map Prod.fst).map (·.stargazerCount)).sum
      = ((filteredRepos repos).map (·.stargazerCount)).sum := by
  have hperm : (ps.insertionSort descRel).Perm ps := List.perm_insertionSort _ _
  have h2 := (hperm.map Prod.fst).map (·.stargazerCount)
  rw [h2.sum_eq, ← computeKeys_fst h]

/-! ### Claim theorems -/

/-- C1: whenever `HealthScorer.calculate_score` returns a value, it is an
integer `n` with `0 ≤ n ≤ 100` — the rounded weighted sum of the six
sub-scores, clamped to `[0, 100]`. -/
theorem C1_score_range (now : Int) (repo : RepoData) (n : ℤ)
    (h : calculate_score now repo = .ok n) : 0 ≤ n ∧ n ≤ 100 := by
  rw [calculate_score] at h
  cases h1 : score_commit_frequency now repo with
  | error e => rw [h1] at h; cases h
  | ok s1 =>
    rw [h1] at h
    cases h3 : score_release_cadence now repo with
    | error e => rw [h3] at h; cases h
    | ok s3 =>
      rw [h3] at h
      cases h5 : score_star_growth now repo with
      | error e => rw [h5] at h; cases h
      | ok s5 =>
        rw [h5] at h
        cases h6 : score_ci_health now repo with
        | error e => rw [h6] at h; cases h
        | ok s6 =>
          rw [h6] at h
          cases h
          constructor
          · exact le_max_left 0 _
          · exact max_le (by norm_num) (min_le_left _ _)

/-- Witness for C1 at the minimal record, where the score is 8. -/
theorem C1_score_range_witness : 0 ≤ (8 : ℤ) ∧ (8 : ℤ) ≤ 100 :=
  C1_score_range 0 {} 8 (by decide)

/-- C10: for the record with every optional field absent and all counts
zero, the six sub-scores are 0, 10, 0, 10, 0, 50, the raw weighted sum is
exactly 8.5, and Python's round-half-to-even rounds it down to 8 (not up
to 9), so `calculate_score` returns exactly 8 — at any evaluation time. -/
theorem C10_minimal_record (now : Int) :
    score_commit_frequency now {} = .ok 0 ∧
    score_responsiveness {} = 10 ∧
    score_release_cadence now {} = .ok 0 ∧
    score_contributors {} = 10 ∧
    score_star_growth now {} = .ok 0 ∧
    score_ci_health now {} = .ok 50 ∧
    qadd (qadd (qadd (qadd (qadd
      (qmul 0 (mkRat 3 10)) (qmul 10 (mkRat 1 4))) (qmul 0 (mkRat 3 20)))
      (qmul 10 (mkRat 1 10))) (qmul 0 (mkRat 1 10))) (qmul 50 (mkRat 1 10))
      = mkRat 17 2 ∧
    roundHalfEven (mkRat 17 2) = 8 ∧
    calculate_score now {} = .ok 8 :=
  ⟨rfl, rfl, rfl, rfl, rfl, rfl, by decide, by decide, rfl⟩

/-- C2: membership in the filtered list is exactly: the repository was in
the input and all four of `isArchived`, `isFork`, `isEmpty`, `isPrivate`
are false. -/
theorem C2_filter_membership (repos : List RepoData) (r : RepoData) :
    r ∈ filteredRepos repos ↔
      (r ∈ repos ∧ r.isArchived = false ∧ r.isFork = false ∧
        r.isEmpty = false ∧ r.isPrivate = false) := by
  simp [filteredRepos, keepRepo, List.mem_filter, and_assoc]

/-- C8: after a page response, a sleep happens only for a remaining count
below 10, always for exactly `reset - now + 1` seconds, and never with a
zero or negative duration; whenever the remaining count is below 10 and
that duration is positive, the sleep is performed. -/
theorem C8_rate_limit_sleep (remaining reset now : Int) :
    (∀ d, rateLimitSleep remaining reset now = some d →
      d = reset - now + 1 ∧ 0 < d) ∧
    (remaining < 10 → 0 < reset - now + 1 →
      rateLimitSleep remaining reset now = some (reset - now + 1)) ∧
    (10 ≤ remaining → rateLimitSleep remaining reset now = none) := by
  refine ⟨?_, ?_, ?_⟩
  · intro d hd
    rw [rateLimitSleep] at hd
    split_ifs at hd with h1 h2
    have hde := (Option.some.inj hd).symm
    exact ⟨hde, by omega⟩
  · intro h1 h2
    rw [rateLimitSleep, if_pos h1, if_pos h2]
  · intro h
    rw [rateLimitSleep, if_neg (by omega)]

/-- Witness for C8: remaining 5, reset 100, now 50 sleeps exactly 51
seconds; remaining 20 does not sleep. -/
theorem C8_rate_limit_sleep_witness :
    rateLimitSleep 5 100 50 = some 51 ∧ rateLimitSleep 20 100 50 = none :=
  ⟨(C8_rate_limit_sleep 5 100 50).2.1 (by decide) (by decide),
   (C8_rate_limit_sleep 20 100 50).2.2 (by decide)⟩

/-- C7 counterexample: a 503 (or any 5xx other than 502) response is
translated by the error handler to the generic upstream error carrying
status and body, not to the retry-friendly unavailable error the claim
asserts for every 5xx-class status. -/
theorem C7_counterexample :
    (handleHTTPError "acme" 503 "Service Unavailable").isUpstreamUnavailable = false ∧
    handleHTTPError "acme" 503 "Service Unavailable"
      = .genericUpstream 503 "Service Unavailable" ∧
    pageOutcome "acme" 503 "Service Unavailable" false true
      = some (.genericUpstream 503 "Service Unavailable") := by decide

/-- C7 amended: 401 fails as the auth error, 404 as not-found, a GraphQL
errors array in a 2xx response as the protocol error, 502 (and only 502
among the 5xx statuses) as the retry-friendly unavailable error, and
every other non-2xx as the generic upstream error carrying status and
body. -/
theorem C7_error_translation (org : String) (status : Nat) (body : String)
    (hasErr orgPresent : Bool) :
    (status = 401 → pageOutcome org status body hasErr orgPresent =
      some (.authError "Invalid GitHub token. Please check your GITHUB_TOKEN.")) ∧
    (status = 404 → pageOutcome org status body hasErr orgPresent =
      some (.notFoundError ("Organization " ++ org ++ " not found"))) ∧
    (200 ≤ status → status ≤ 299 → hasErr = true →
      pageOutcome org status body hasErr orgPresent =
        some (.protocolError "GraphQL query failed")) ∧
    (status = 502 → pageOutcome org status body hasErr orgPresent =
      some (.upstreamUnavailable "GitHub servers are temporarily unavailable (502). Try again in a few moments or try a smaller organization.")) ∧
    (¬(200 ≤ status ∧ status ≤ 299) → status ≠ 401 → status ≠ 404 → status ≠ 502 →
      pageOutcome org status body hasErr orgPresent =
        some (.genericUpstream status body)) := by
  refine ⟨?_, ?_, ?_, ?_, ?_⟩
  · intro h
    subst h
    rw [pageOutcome, if_pos (by omega), handleHTTPError, if_pos rfl]
  · intro h
    subst h
    rw [pageOutcome, if_pos (by omega), handleHTTPError, if_neg (by omega), if_pos rfl]
  · intro h1 h2 h3
    subst h3
    rw [pageOutcome, if_neg (by omega), if_pos rfl]
  · intro h
    subst h
    rw [pageOutcome, if_pos (by omega), handleHTTPError, if_neg (by omega),
      if_neg (by omega), if_pos rfl]
  · intro h1 h2 h3 h4
    rw [pageOutcome, if_pos h1, handleHTTPError, if_neg h2, if_neg h3, if_neg h4]

/-- Witness for C7 (amended) at concrete statuses. -/
theorem C7_error_translation_witness :
    pageOutcome "acme" 401 "" false true =
      some (.authError "Invalid GitHub token. Please check your GITHUB_TOKEN.") ∧
    pageOutcome "acme" 404 "" false true =
      some (.notFoundError ("Organization " ++ "acme" ++ " not found")) ∧
    pageOutcome "acme" 200 "" true true =
      some (.protocolError "GraphQL query failed") ∧
    pageOutcome "acme" 502 "bad gateway" false true =
      some (.upstreamUnavailable "GitHub servers are temporarily unavailable (502). Try again in a few moments or try a smaller organization.") ∧
    pageOutcome "acme" 500 "server error" false true =
      some (.genericUpstream 500 "server error") :=
  ⟨(C7_error_translation "acme" 401 "" false true).1 rfl,
   (C7_error_translation "acme" 404 "" false true).2.1 rfl,
   (C7_error_translation "acme" 200 "" true true).2.2.1 (by decide) (by decide) rfl,
   (C7_error_translation "acme" 502 "bad gateway" false true).2.2.2.1 rfl,
   (C7_error_translation "acme" 500 "server error" false true).2.2.2.2
     (by decide) (by decide) (by decide) (by decide)⟩

/-- C9: with a non-negative TTL, a `set` followed by an immediate `get`
of the same key returns the stored value; with the TTL configured to 0, a
`set` followed by a strictly later `get` returns absent; and after
`clear_all`, a `get` of a previously-set key returns absent. -/
theorem C9_cache_ops (c c0 : CacheState) (p i v : String) (now later : Int)
    (httl : 0 ≤ c.ttlHours) (h0 : c0.ttlHours = 0) (hlt : now < later) :
    (cacheGet (cacheSet c p i v now) p i now).1 = some v ∧
    (cacheGet (cacheSet c0 p i v now) p i later).1 = none ∧
    (cacheGet (clear_all (cacheSet c p i v now)) p i later).1 = none := by
  refine ⟨?_, ?_, ?_⟩
  · rw [cacheGet, cacheSet]
    simp only [List.find?_cons, decide_eq_true_eq, decide_True, if_true]
    rw [if_neg (by omega)]
  · rw [cacheGet, cacheSet]
    simp only [List.find?_cons, decide_eq_true_eq, decide_True, if_true]
    rw [if_pos (by omega)]
  · rw [clear_all, cacheGet]
    simp [List.find?]

/-- Witness for C9 at a concrete cache with TTL 1 hour (resp. 0). -/
theorem C9_cache_ops_witness :
    (cacheGet (cacheSet ⟨1, []⟩ "org_repos" "acme" "data" 0) "org_repos" "acme" 0).1
      = some "data" ∧
    (cacheGet (cacheSet ⟨0, []⟩ "org_repos" "acme" "data" 0) "org_repos" "acme" 1).1
      = none ∧
    (cacheGet (clear_all (cacheSet ⟨1, []⟩ "org_repos" "acme" "data" 0)) "org_repos" "acme" 1).1
      = none :=
  C9_cache_ops ⟨1, []⟩ ⟨0, []⟩ "org_repos" "acme" "data" 0 1 (by decide) rfl (by decide)

theorem score_commit_frequency_ok (now : Int) (r : RepoData)
    (h : dateFieldOk r.pushedAt = true) :
    (score_commit_frequency now r).isOk = true := by
  rw [score_commit_frequency]
  cases hf : strFalsy r.pushedAt with
  | true => simp [hf, Except.isOk, Except.toBool]
  | false =>
    rw [dateFieldOk, hf] at h
    simp only [Bool.false_or] at h
    obtain ⟨t, ht⟩ := Option.isSome_iff_exists.mp h
    simp [hf, ht, Except.isOk, Except.toBool]

theorem score_ci_health_ok (now : Int) (r : RepoData)
    (h : dateFieldOk r.pushedAt = true) :
    (score_ci_health now r).isOk = true := by
  rw [score_ci_health]
  cases hf : strFalsy r.pushedAt with
  | true => simp [hf, Except.isOk, Except.toBool]
  | false =>
    rw [dateFieldOk, hf] at h
    simp only [Bool.false_or] at h
    obtain ⟨t, ht⟩ := Option.isSome_iff_exists.mp h
    simp [hf, ht, Except.isOk, Except.toBool]

theorem score_release_cadence_ok (now : Int) (r : RepoData)
    (hc : dateFieldOk r.createdAt = true)
    (hr : r.releaseNodes.isEmpty = true ∨
      (parseDateZ (r.releaseNodes.headD "")).isSome = true) :
    (score_release_cadence now r).isOk = true := by
  rw [score_release_cadence]
  cases hn : r.releaseNodes with
  | nil =>
    cases hf : strFalsy r.createdAt with
    | true => simp [hf, Except.isOk, Except.toBool]
    | false =>
      rw [dateFieldOk, hf] at hc
      simp only [Bool.false_or] at hc
      obtain ⟨t, ht⟩ := Option.isSome_iff_exists.mp hc
      simp [hf, ht, Except.isOk, Except.toBool]
  | cons rel rest =>
    rcases hr with hr | hr
    · rw [hn] at hr
      simp at hr
    · rw [hn] at hr
      simp only [List.headD_cons] at hr
      obtain ⟨t, ht⟩ := Option.isSome_iff_exists.mp hr
      simp [ht, Except.isOk, Except.toBool]

theorem score_star_growth_ok (now : Int) (r : RepoData)
    (hc : dateFieldOk r.createdAt = true) :
    (score_star_growth now r).isOk = true := by
  rw [score_star_growth]
  cases hcond : (strFalsy r.createdAt || r.stargazerCount == 0) with
  | true => simp [hcond, Except.isOk, Except.toBool]
  | false =>
    have hf : strFalsy r.createdAt = false := by
      rcases Bool.or_eq_false_iff.mp hcond with ⟨hf, _⟩
      exact hf
    rw [dateFieldOk, hf] at hc
    simp only [Bool.false_or] at hc
    obtain ⟨t, ht⟩ := Option.isSome_iff_exists.mp hc
    simp [hcond, ht, Except.isOk, Except.toBool]

/-- C5 counterexample: a record with a present but malformed `pushedAt`
makes `calculate_score` raise (modelled as `.error`), so the function is
not total on records with malformed optional fields. -/
theorem C5_counterexample :
    calculate_score 0 malformedRepo = .error "ValueError: invalid isoformat string" ∧
    (calculate_score 0 malformedRepo).isOk = false := by decide

/-- C5 amended: `calculate_score` is total on every record whose optional
timestamp fields are absent (or empty) or well-formed; in those runs,
missing data degrades to the defined neutral or zero sub-score.  A
present but malformed timestamp string instead raises `ValueError`. -/
theorem C5_total_when_wellformed (now : Int) (r : RepoData)
    (h : repoWellFormed r = true) : (calculate_score now r).isOk = true := by
  rw [repoWellFormed] at h
  simp only [Bool.and_eq_true, Bool.or_eq_true] at h
  obtain ⟨⟨hp, hc⟩, hrel⟩ := h
  obtain ⟨s1, h1⟩ := (except_isOk_iff _).mp (score_commit_frequency_ok now r hp)
  obtain ⟨s3, h3⟩ := (except_isOk_iff _).mp (score_release_cadence_ok now r hc hrel)
  obtain ⟨s5, h5⟩ := (except_isOk_iff _).mp (score_star_growth_ok now r hc)
  obtain ⟨s6, h6⟩ := (except_isOk_iff _).mp (score_ci_health_ok now r hp)
  rw [calculate_score, h1, h3, h5, h6]
  rfl

/-- Witness for C5 (amended) at a fully-populated well-formed record. -/
theorem C5_total_when_wellformed_witness :
    (calculate_score 1705314600 wellFormedRepo).isOk = true :=
  C5_total_when_wellformed 1705314600 wellFormedRepo (by decide)

theorem select_eq_ok {now : Int} {repos : List RepoData} {m : Nat}
    {ps : List (RepoData × ℚ)}
    (hps : computeKeys now (filteredRepos repos) = .ok ps) :
    select_important_repos now repos m =
      if ((ps.insertionSort descRel).map Prod.fst).length ≤ m then
        .ok ((ps.insertionSort descRel).map Prod.fst)
      else
        .ok (selectLoop m
          ((((ps.insertionSort descRel).map Prod.fst).map (·.stargazerCount)).sum)
          ((ps.insertionSort descRel).map Prod.fst) 0 []) := by
  rw [select_important_repos, hps]

theorem select_pairwise {now : Int} {repos : List RepoData} {m : Nat}
    {l : List RepoData}
    (h : select_important_repos now repos m = .ok l) :
    l.Pairwise (fun a b => ∀ qa qb, importance_score now a = .ok qa →
      importance_score now b = .ok qb → qb ≤ qa) := by
  cases hps : computeKeys now (filteredRepos repos) with
  | error e => rw [select_important_repos, hps] at h; cases h
  | ok ps =>
    rw [select_eq_ok hps] at h
    have hmemkeys := computeKeys_mem hps
    have hsorted : (ps.insertionSort descRel).Pairwise descRel :=
      List.sorted_insertionSort descRel ps
    have hpw : (ps.insertionSort descRel).Pairwise
        (fun x y => ∀ qa qb, importance_score now x.1 = .ok qa →
          importance_score now y.1 = .ok qb → qb ≤ qa) := by
      refine hsorted.imp_of_mem ?_
      intro a b ha hb hr qa qb hqa hqb
      have hr' : b.2 ≤ a.2 := hr
      have ha' := hmemkeys a ((List.mem_insertionSort descRel).mp ha)
      have hb' := hmemkeys b ((List.mem_insertionSort descRel).mp hb)
      rw [ha'] at hqa
      rw [hb'] at hqb
      have e1 := Except.ok.inj hqa
      have e2 := Except.ok.inj hqb
      rw [← e1, ← e2]
      exact hr'
    have hfinal : ((ps.insertionSort descRel).map Prod.fst).Pairwise
        (fun a b => ∀ qa qb, importance_score now a = .ok qa →
          importance_score now b = .ok qb → qb ≤ qa) :=
      List.pairwise_map.mpr hpw
    split_ifs at h with hif
    · cases h
      exact hfinal
    · cases h
      obtain ⟨k, hk⟩ := selectLoop_eq_take m
        ((((ps.insertionSort descRel).map Prod.fst).map (·.stargazerCount)).sum)
        ((ps.insertionSort descRel).map Prod.fst) 0 []
      rw [hk]
      simp only [List.reverse_nil, List.nil_append]
      exact List.Pairwise.sublist (List.take_sublist k _) hfinal

/-- C3 counterexample: 50 repositories all surviving the filter, with all
1000 stars on one of them, and `maxCount = 10`: the 80 %-coverage break
fires at prefix length 5, so only 5 repositories are returned, not 10. -/
theorem C3_counterexample :
    repos50cex.length = 50 ∧
    (∀ r ∈ repos50cex, keepRepo r = true) ∧
    (select_important_repos 0 repos50cex 10).map List.length = .ok 5 ∧
    (select_important_repos 0 repos50cex 10).map List.length ≠ .ok 10 := by decide

/-- C3 amended: for 50 repositories that all survive the filter (and on
which the importance key computes), `select_important_repos` with
`maxCount = 10` returns between 5 and 10 repositories; it returns exactly
10 only when no prefix of length 5–9 already covers 80 % of the stars. -/
theorem C3_fifty_max_ten (now : Int) (repos : List RepoData)
    (hlen : repos.length = 50)
    (hkeep : ∀ r ∈ repos, keepRepo r = true)
    (hwf : ∀ r ∈ repos, (importance_score now r).isOk = true) :
    ∃ l, select_important_repos now repos 10 = .ok l ∧
      5 ≤ l.length ∧ l.length ≤ 10 := by
  have hsub : ∀ r ∈ filteredRepos repos, (importance_score now r).isOk = true :=
    fun r hr => hwf r (List.mem_filter.mp hr).1
  obtain ⟨ps, hps⟩ := computeKeys_ok hsub
  have hfil : filteredRepos repos = repos := List.filter_eq_self.mpr hkeep
  have hslen : ((ps.insertionSort descRel).map Prod.fst).length = 50 := by
    rw [sortedOf_length hps, hfil, hlen]
  rw [select_eq_ok hps, if_neg (by rw [hslen]; omega)]
  refine ⟨_, rfl, ?_, ?_⟩
  · have hge := selectLoop_length_ge 10
      ((((ps.insertionSort descRel).map Prod.fst).map (·.stargazerCount)).sum)
      ((ps.insertionSort descRel).map Prod.fst) 0 []
    rw [hslen] at hge
    simp only [List.length_nil, Nat.zero_add] at hge
    omega
  · exact selectLoop_length_le 10 _ _ 0 [] (by simp)

/-- Witness for C3 (amended) at the concrete 50-repository input. -/
theorem C3_fifty_max_ten_witness :
    ∃ l, select_important_repos 0 repos50cex 10 = .ok l ∧
      5 ≤ l.length ∧ l.length ≤ 10 :=
  C3_fifty_max_ten 0 repos50cex (by decide) (by decide) (by decide)

/-- C4 counterexample: 7 filtered repositories with zero total stars and
`maxCount = 6`: the coverage check (trivially satisfied when total stars
is 0) fires at length 5 before the length check can reach 6, so 5
repositories are returned, not `maxCount = 6`. -/
theorem C4_counterexample :
    (filteredRepos repos7zero).length = 7 ∧
    ((filteredRepos repos7zero).map (·.stargazerCount)).sum = 0 ∧
    (select_important_repos 0 repos7zero 6).map List.length = .ok 5 ∧
    (select_important_repos 0 repos7zero 6).map List.length ≠ .ok 6 := by decide

/-- C4 amended: when the total star count of the filtered repositories is
zero and their number exceeds `maxCount ≥ 1`, `select_important_repos`
returns exactly `min maxCount 5` repositories: the length check fires
first only when `maxCount ≤ 5`; otherwise the 80 %-coverage check, which
is trivially satisfied at zero total stars, stops the loop at length 5. -/
theorem C4_zero_star_truncation (now : Int) (repos : List RepoData) (m : Nat)
    (hm : 1 ≤ m)
    (hwf : ∀ r ∈ repos, (importance_score now r).isOk = true)
    (htot : ((filteredRepos repos).map (·.stargazerCount)).sum = 0)
    (hgt : m < (filteredRepos repos).length) :
    ∃ l, select_important_repos now repos m = .ok l ∧ l.length = min m 5 := by
  have hsub : ∀ r ∈ filteredRepos repos, (importance_score now r).isOk = true :=
    fun r hr => hwf r (List.mem_filter.mp hr).1
  obtain ⟨ps, hps⟩ := computeKeys_ok hsub
  have hslen := sortedOf_length hps
  have hsum := sortedOf_sum hps
  rw [select_eq_ok hps, if_neg (by rw [hslen]; omega)]
  refine ⟨_, rfl, ?_⟩
  rw [hsum, htot]
  refine selectLoop_total_zero m _ 0 [] (by simp; omega) (by simp) ?_
  rw [List.length_nil, Nat.zero_add, hslen]
  omega

/-- Witness for C4 (amended) at the concrete zero-star input with
`maxCount = 6`, where `min 6 5 = 5` repositories are returned. -/
theorem C4_zero_star_truncation_witness :
    ∃ l, select_important_repos 0 repos7zero 6 = .ok l ∧ l.length = min 6 5 :=
  C4_zero_star_truncation 0 repos7zero 6 (by decide) (by decide) (by decide) (by decide)

/-- C6: a filtered repository's importance score is
`stars * 1.0 + forks * 0.5`, multiplied by 1.2 when the last push is
within the last 30 days, by 0.8 when it was not pushed in over 365 days,
unmodified otherwise and when no push timestamp is present; and the
output of `select_important_repos` is ordered by this importance score,
descending. -/
theorem C6_importance_and_order (now : Int) (r : RepoData) (d? : Option Int)
    (repos : List RepoData) (m : Nat) (l : List RepoData)
    (hd : daysSincePush now r = .ok d?)
    (hsel : select_important_repos now repos m = .ok l) :
    importance_score now r = .ok (specImportanceScore r.stargazerCount r.forkCount d?) ∧
    l.Pairwise (fun a b => ∀ qa qb, importance_score now a = .ok qa →
      importance_score now b = .ok qb → qb ≤ qa) := by
  constructor
  · rw [importance_score, hd]
    show Except.ok (importanceOf r d?) = _
    congr 1
    have hbase : baseScore r
        = (r.stargazerCount : ℚ) * 1 + (r.forkCount : ℚ) * (1 / 2) := by
      rw [baseScore, qadd_eq, qmul_eq, qmul_eq]
      norm_num [Rat.mkRat_eq_div]
    cases d? with
    | none =>
      simp only [importanceOf, specImportanceScore]
      exact hbase
    | some d =>
      simp only [importanceOf, specImportanceScore]
      split_ifs with h30 h365
      · rw [qmul_eq, hbase]
        norm_num [Rat.mkRat_eq_div]
      · rw [qmul_eq, hbase]
        norm_num [Rat.mkRat_eq_div]
      · exact hbase
  · exact select_pairwise hsel

/-- Witness for C6 at a two-repository input sorted into 5-star before
1-star order. -/
theorem C6_importance_and_order_witness :
    importance_score 0 { name := "a", stargazerCount := 1 } =
      .ok (specImportanceScore 1 0 none) ∧
    ([({ name := "b", stargazerCount := 5 } : RepoData),
      { name := "a", stargazerCount := 1 }]).Pairwise
      (fun a b => ∀ qa qb, importance_score 0 a = .ok qa →
        importance_score 0 b = .ok qb → qb ≤ qa) :=
  C6_importance_and_order 0 { name := "a", stargazerCount := 1 } none
    [{ name := "a", stargazerCount := 1 }, { name := "b", stargazerCount := 5 }] 30
    [{ name := "b", stargazerCount := 5 }, { name := "a", stargazerCount := 1 }]
    (by decide) (by decide)
